import Mathlib

/-!
Shallow embedding of the configuration data model and validators of the
contagion repository (contagion.py, configurator/configuration.py,
configurator/validators.py), together with proofs about the serialization
and validation behaviour.

Python conventions modelled here:
- fallible code (uncaught TypeError / ValueError / IndexError) is modelled
  with Option / an explicit fault constructor;
- Python `str.split(None)` / `str.split(None, 1)` are modelled by
  whitespace splitters over character lists;
- Python float values are carried as their `str()` rendering (a String),
  which is the only way the serializer ever uses them.
-/

/-- Whitespace class used by Python's `str.split(None)` and the `\s` regex
class (ASCII subset, which is all the repository's inputs use). -/
def pyIsSpace (c : Char) : Bool :=
  c == ' ' || c == '\t' || c == '\n' || c == '\r' || c == '\x0b' || c == '\x0c'

/-- Drop leading whitespace characters. -/
def eatWs (s : List Char) : List Char := s.dropWhile pyIsSpace

/-- `text.split(None, 1)`: strip leading whitespace, cut out the first
whitespace-delimited token, strip the separating whitespace, and keep the
remainder verbatim.  Returns `[]` for empty/all-whitespace input, a
one-element list when nothing follows the first token. -/
def pySplit1 (text : String) : List String :=
  let s := eatWs text.toList
  let tok := s.takeWhile (fun c => !(pyIsSpace c))
  if tok = [] then []
  else
    let rest := eatWs (s.dropWhile (fun c => !(pyIsSpace c)))
    if rest = [] then [String.mk tok] else [String.mk tok, String.mk rest]

/-- Accumulator-based splitter used to model `text.split(None)`. -/
def splitWsAux : List Char → List Char → List String
  | [], acc => if acc = [] then [] else [String.mk acc.reverse]
  | c :: cs, acc =>
      if pyIsSpace c then
        if acc = [] then splitWsAux cs []
        else String.mk acc.reverse :: splitWsAux cs []
      else splitWsAux cs (c :: acc)

/-- `text.split(None)`: whitespace-run splitting with empty fields dropped. -/
def pySplitWs (text : String) : List String := splitWsAux text.toList []

/-- Accumulator-based splitter for `s.split('=')` / `s.splitOn "="`
(structural, so that it evaluates inside the kernel). -/
def splitOnEqAux : List Char → List Char → List String
  | [], acc => [String.mk acc.reverse]
  | c :: cs, acc =>
      if c == '=' then String.mk acc.reverse :: splitOnEqAux cs []
      else splitOnEqAux cs (c :: acc)

/-- Python `s.split('=')`. -/
def splitOnEq (s : String) : List String := splitOnEqAux s.toList []

/-- Accumulator-based scanner for maximal digit runs (`re.findall(r'\d+', text)`). -/
def digitRunsAux : List Char → List Char → List (List Char)
  | [], acc => if acc = [] then [] else [acc.reverse]
  | c :: cs, acc =>
      if c.isDigit then digitRunsAux cs (c :: acc)
      else if acc = [] then digitRunsAux cs []
      else acc.reverse :: digitRunsAux cs []

/-- `re.findall(r'\d+', text)`: the list of maximal digit runs in `text`. -/
def digitRuns (text : String) : List (List Char) := digitRunsAux text.toList []

/-- `int(...)` on a digit string. -/
def digitsToInt (s : List Char) : Int :=
  Int.ofNat (s.foldl (fun n c => 10 * n + (c.toNat - 48)) 0)

/-- Python `str(int)`. -/
def pyStrInt (n : Int) : String := toString n

/-- Python `str(bool)`. -/
def pyStrBool (b : Bool) : String := if b then "True" else "False"

/-- Python `str(list_of_ints)`, e.g. `[0, 1, 2]`. -/
def pyReprIntList (xs : List Int) : String :=
  "[" ++ String.intercalate ", " (xs.map toString) ++ "]"

/-- One `"{k} = {v}\n"` formatted line of the serializer. -/
def fmtKV (k v : String) : String := k ++ " = " ++ v ++ "\n"

/-!
## Model hierarchy (configurator/configuration.py)
-/

/-- `IntrahostModel` (configuration.py, class `IntrahostModel(Model)`).
Python float fields (`mutation_rate`, `recombination_rate`, `growth_rate`)
are carried as their `str()` rendering, which is all `toml_string` uses of
them; integer fields are `Int`.  `transition_matrix` is produced by `eval`
in the source and never serialized; we carry its entries' renderings. -/
structure IntrahostModel where
  model_name : String
  host_ids : List Int
  mutation_rate : String
  transition_matrix : List (List String)
  recombination_rate : String
  replication_model : String  -- constant, bht, fitness
  constant_pop_size : Int
  max_pop_size : Int
  growth_rate : String
  exposed_duration : Int
  infected_duration : Int
  infective_duration : Int
  removed_duration : Int
  recovered_duration : Int
  dead_duration : Int
  vaccinated_duration : Int
deriving DecidableEq

/-- The ordered duration dictionary written by `IntrahostModel.toml_string`
(keys in the order of the source's `OrderedDict`). -/
def durationKVs (m : IntrahostModel) : List (String × Int) :=
  [("exposed_duration", m.exposed_duration),
   ("infected_duration", m.infected_duration),
   ("infective_duration", m.infective_duration),
   ("removed_duration", m.removed_duration),
   ("recovered_duration", m.recovered_duration),
   ("dead_duration", m.dead_duration),
   ("vaccinated_duration", m.vaccinated_duration)]

/-- The sequence of `key = value` lines appended to `config_string` by
`IntrahostModel.toml_string`, as (key, rendered value) pairs, in append
order: the five fixed fields, then durations filtered to the non-zero ones,
then the population-size field chosen by `replication_model`, then
`growth_rate` for `bh`/`bht`. -/
def IntrahostModel.blockEntries (m : IntrahostModel) : List (String × String) :=
  [("model_name", m.model_name),
   ("host_ids", pyReprIntList m.host_ids),
   ("mutation_rate", m.mutation_rate),
   ("recombination_rate", m.recombination_rate),
   ("replication_model", m.replication_model)]
  ++ ((durationKVs m).filter (fun p => p.2 != 0)).map (fun p => (p.1, pyStrInt p.2))
  ++ (if m.replication_model ∈ ["bht", "fitness"]
      then [("max_pop_size", pyStrInt m.max_pop_size)]
      else [("constant_pop_size", pyStrInt m.constant_pop_size)])
  ++ (if m.replication_model ∈ ["bh", "bht"]
      then [("growth_rate", m.growth_rate)]
      else [])

/-- The local `config_string` built by `IntrahostModel.toml_string`:
header line, one formatted line per entry, trailing blank line. -/
def IntrahostModel.blockString (m : IntrahostModel) : String :=
  "[[intrahost_model]]\n"
  ++ String.join (m.blockEntries.map (fun p => fmtKV p.1 p.2))
  ++ "\n"

/-- `IntrahostModel.toml_string` builds `config_string` and then falls off
the end of the method without a `return` statement, so it returns `None`. -/
def IntrahostModel.toml_string (m : IntrahostModel) : Option String :=
  let _config_string := m.blockString
  none

/-- `FitnessModel` (configuration.py). -/
structure FitnessModel where
  model_name : String
  host_ids : List Int
  fitness_model : String  -- multiplicative, additive, additive_motif
  fitness_model_path : String
deriving DecidableEq

/-- The local `config_string` built by `FitnessModel.toml_string`. -/
def FitnessModel.blockString (m : FitnessModel) : String :=
  "[[fitness_model]]\n"
  ++ fmtKV "model_name" m.model_name
  ++ fmtKV "host_ids" (pyReprIntList m.host_ids)
  ++ fmtKV "fitness_model" m.fitness_model
  ++ fmtKV "fitness_model_path" m.fitness_model_path
  ++ "\n"

/-- `FitnessModel.toml_string` also lacks a `return`: it returns `None`. -/
def FitnessModel.toml_string (m : FitnessModel) : Option String :=
  let _config_string := m.blockString
  none

/-- `TransmissionModel` (configuration.py).  `transmission_prob` and
`transmission_size` are set from raw prompt strings in
`create_transmission_model` (contagion.py), so we carry their renderings. -/
structure TransmissionModel where
  model_name : String
  host_ids : List Int
  mode : String  -- poisson, constant
  transmission_prob : String
  transmission_size : String
deriving DecidableEq

/-- The local `config_string` built by `TransmissionModel.toml_string`. -/
def TransmissionModel.blockString (m : TransmissionModel) : String :=
  "[[transmission_model]]\n"
  ++ fmtKV "model_name" m.model_name
  ++ fmtKV "host_ids" (pyReprIntList m.host_ids)
  ++ fmtKV "transmission_prob" m.transmission_prob
  ++ fmtKV "transmission_size" m.transmission_size
  ++ "\n"

/-- `TransmissionModel.toml_string` also lacks a `return`: it returns `None`. -/
def TransmissionModel.toml_string (m : TransmissionModel) : Option String :=
  let _config_string := m.blockString
  none

/-- `Configuration` (configuration.py).  The three `OrderedDict` collections
are insertion-ordered association lists from model name to model. -/
structure Configuration where
  config_path : String
  num_generations : Int
  num_instances : Int
  host_popsize : Int
  epidemic_model : String
  coinfection : Bool
  pathogen_path : String
  host_network_path : String
  log_freq : Int
  log_path : String
  intrahost_model_dict : List (String × IntrahostModel)
  fitness_model_dict : List (String × FitnessModel)
  transmission_model_dict : List (String × TransmissionModel)

/-- The `[simulation]` block of `Configuration.toml_string`. -/
def Configuration.simBlock (c : Configuration) : String :=
  "[simulation]\n"
  ++ fmtKV "num_generations" (pyStrInt c.num_generations)
  ++ fmtKV "num_instances" (pyStrInt c.num_instances)
  ++ fmtKV "host_popsize" (pyStrInt c.host_popsize)
  ++ fmtKV "epidemic_model" c.epidemic_model
  ++ fmtKV "coinfection" (pyStrBool c.coinfection)
  ++ fmtKV "pathogen_path" c.pathogen_path
  ++ fmtKV "host_network_path" c.host_network_path
  ++ "\n"

/-- The logging block of `Configuration.toml_string`; the source labels it
with a second `[simulation]` header. -/
def Configuration.loggingBlock (c : Configuration) : String :=
  "[simulation]\n"
  ++ fmtKV "log_freq" (pyStrInt c.log_freq)
  ++ fmtKV "log_path" c.log_path
  ++ "\n"

/-- Python `config_string += model.toml_string()`: appending `None` to a
`str` raises a TypeError, modelled by `none`. -/
def pyConcat (acc : Option String) (piece : Option String) : Option String :=
  match acc, piece with
  | some a, some b => some (a ++ b)
  | _, _ => none

/-- `Configuration.toml_string`: the simulation block, the logging block,
then `+=` of each intrahost, fitness and transmission model's
`toml_string()` in insertion order. -/
def Configuration.toml_string (c : Configuration) : Option String :=
  let afterIntra := (c.intrahost_model_dict.map Prod.snd).foldl
    (fun acc m => pyConcat acc m.toml_string)
    (some (c.simBlock ++ c.loggingBlock))
  let afterFit := (c.fitness_model_dict.map Prod.snd).foldl
    (fun acc m => pyConcat acc m.toml_string) afterIntra
  (c.transmission_model_dict.map Prod.snd).foldl
    (fun acc m => pyConcat acc m.toml_string) afterFit

/-!
## Duration collection during intrahost-model construction
(contagion.py `create_intrahost_model`, mirrored by
configuration.py `new_intrahost_model_prompt`)
-/

/-- `epidemic_model.startswith(pre)` (structural, kernel-evaluable). -/
def pyStartsWith (s pre : String) : Bool := pre.toList.isPrefixOf s.toList

/-- `epidemic_model.endswith(suf)` (structural, kernel-evaluable). -/
def pyEndsWith (s suf : String) : Bool :=
  suf.toList.reverse.isPrefixOf s.toList.reverse

/-- Which duration fields receive a prompt during intrahost-model
construction. -/
structure DurationChoice where
  exposed : Bool
  infected : Bool
  infective : Bool
  removed : Bool
  recovered : Bool
deriving DecidableEq

/-- The duration prompts fired by `create_intrahost_model`: all duration
locals start at 0 (here: no field collected), and a field is collected
exactly when its prompt runs.  Mirrors the source's branch structure on
`replication_model` and `epidemic_model`, with the sequential assignments
rendered as record updates. -/
def collectedDurations (replication_model epidemic_model : String) : DurationChoice :=
  let d : DurationChoice := ⟨false, false, false, false, false⟩
  if replication_model != "fitness" then
    if epidemic_model == "endtrans" then
      { d with infected := true, removed := true }
    else if epidemic_model == "exchange" then
      d
    else
      let d := if pyStartsWith epidemic_model "se" then { d with exposed := true } else d
      let d := if pyStartsWith epidemic_model "si" then { d with infected := true } else d
      let d := if pyStartsWith epidemic_model "sei" then { d with infective := true } else d
      let d := if pyEndsWith epidemic_model "r" then { d with removed := true } else d
      let d := if pyEndsWith epidemic_model "rs" then { d with recovered := true } else d
      d
  else d

/-!
## Statement validation (configurator/validators.py) and the main loop
dispatch (contagion.py)
-/

/-- Outcome of running one sub-validator: return normally, raise a
prompt_toolkit ValidationError (message and cursor offset), or escape with
an uncaught IndexError / ValueError. -/
inductive VResult where
  | ok : VResult
  | verr (message : String) (cursor_position : Nat) : VResult
  | indexFault : VResult
  | valueFault : VResult
deriving DecidableEq

/-- A Python value, as far as the configuration shell manipulates them. -/
inductive PyVal where
  | pynone : PyVal
  | int (n : Int) : PyVal
  | str (s : String) : PyVal
  | bool (b : Bool) : PyVal
  | strlist (xs : List String) : PyVal
  | odict : PyVal
deriving DecidableEq

/-- Python `x in d.keys()` on a dict with `str` keys: the keys view is
hash-based, so membership hashes `x` first.  An unhashable operand (a
`list`, a `dict`) raises `TypeError: unhashable type` (`none`) before any
comparison; a `str` operand is looked up by value; other hashable values
never equal a `str` key. -/
def pyKeysContains (keys : List String) (x : PyVal) : Option Bool :=
  match x with
  | .strlist _ => none
  | .odict => none
  | .str s => some (keys.contains s)
  | _ => some false

/-- `list(re.finditer(tok, text))[0].end()`: one past the end of the first
occurrence of `tok` in `text` (the source interpolates plain words, so the
pattern is effectively literal; absence, which would raise in the source,
is mapped to 0 and never exercised). -/
def firstOccEndAux (tok : List Char) : List Char → Nat → Nat
  | [], i => if tok.isPrefixOf ([] : List Char) then i + tok.length else 0
  | s@(_ :: rest), i =>
      if tok.isPrefixOf s then i + tok.length else firstOccEndAux tok rest (i + 1)

def firstOccEnd (tok text : String) : Nat := firstOccEndAux tok.toList text.toList 0

/-- Keys of `PREFIX_COMMAND_VALIDATOR` (validators.py). -/
def VALIDATOR_COMMAND_KEYS : List String :=
  ["run", "create", "append", "generate", "set", "get", "reset", "load",
   "save", "todb", "tocsv"]

/-- Keys of `PREFIX_COMMAND_HANDLER` (configurator/__init__.py, re-created
in contagion.py with the same keys). -/
def HANDLER_COMMAND_KEYS : List String :=
  ["run", "create", "append", "generate", "set", "get", "reset", "load",
   "save", "todb", "tocsv"]

/-- `SINGLE_WORD_COMMANDS` from configurator/__init__.py
(`EXIT_COMMANDS + ['configure', 'clear']`), imported by validators.py. -/
def SINGLE_WORD_COMMANDS : List String :=
  ["exit", "exit()", "quit", "quit()", "q", "configure", "clear"]

/-- Python `'=' in w` (structural, kernel-evaluable). -/
def hasEq (w : String) : Bool := w.toList.any (fun c => c == '=')

/-- The `'='`-containing tokens after the command word:
`[kwarg for kwarg in text.split(None)[1:] if '=' in kwarg]`. -/
def kwargTokens (text : String) : List String :=
  ((pySplitWs text).drop 1).filter (fun w => hasEq w)

/-- The positional arguments after the command word:
`[arg for arg in text.split(None)[1:] if '=' not in arg]`. -/
def posArgs (text : String) : List String :=
  ((pySplitWs text).drop 1).filter (fun w => !(hasEq w))

/-- One insertion into a Python dict: an existing key keeps its place but
takes the new value; a new key is appended. -/
def dictInsert (d : List (String × String)) (k v : String) :
    List (String × String) :=
  if d.any (fun p => p.1 == k) then
    d.map (fun p => if p.1 == k then (k, v) else p)
  else d ++ [(k, v)]

/-- `dict(list_of_pairs)`: builds the dict left to right; an element that is
not a 2-element list raises ValueError (`none`). -/
def pyDictAux : List (String × String) → List (List String) →
    Option (List (String × String))
  | acc, [] => some acc
  | acc, [k, v] :: rest => pyDictAux (dictInsert acc k v) rest
  | _, _ :: _ => none

/-- `re.search(r'\d+', val) is not None`. -/
def hasDigit (v : String) : Bool := v.toList.any Char.isDigit

def RUN_VALID_KEYWORDS : List String := ["logger", "threads"]

def RUN_VALID_LOGGER_VALUES : List String := ["csv", "sqlite"]

/-- The `for k, val in kwargs.items()` loop of `run_subvalidator`. -/
def checkRunKwargs (text : String) : List (String × String) → VResult
  | [] => .ok
  | (k, v) :: rest =>
      if !(RUN_VALID_KEYWORDS.contains k) then
        .verr (k ++ " not a valid keyword") (firstOccEnd k text)
      else if k == "logger" && !(RUN_VALID_LOGGER_VALUES.contains v) then
        .verr (v ++ " not a valid value for " ++ k) (firstOccEnd v text)
      else if k == "threads" && !(hasDigit v) then
        .verr (v ++ " not a valid value for " ++ k) (firstOccEnd v text)
      else checkRunKwargs text rest

/-- `run_subvalidator` (validators.py):
`kwargs = dict([kwarg.split('=') for kwarg in text.split(None)[1:] if '=' in kwarg])`
followed by the keyword/value checks. -/
def run_subvalidator (text : String) : VResult :=
  match pyDictAux [] ((kwargTokens text).map splitOnEq) with
  | none => .valueFault
  | some kwargs => checkRunKwargs text kwargs

def CREATE_VALID_KEYWORDS : List String :=
  ["intrahost_model", "fitness_model", "transmission_model"]

/-- `re.search(r'^[A-Za-z0-9\_\-\*]+$', s) is not None`. -/
def validModelName (s : String) : Bool :=
  !(s.isEmpty) && s.toList.all (fun c => c.isAlphanum || c == '_' || c == '-' || c == '*')

/-- `create_append_subvalidator` (validators.py).  `args[0]` and `args[1]`
on a too-short argument list raise IndexError.  The model-name error
message interpolates `args[0]`, as the source does. -/
def create_append_subvalidator (text : String) : VResult :=
  let args := posArgs text
  if args.length > 2 then
    .verr ("Expected 2 arguments, got " ++ toString args.length) text.length
  else
    match args with
    | [] => .indexFault
    | a0 :: rest =>
      if !(CREATE_VALID_KEYWORDS.contains a0) then
        .verr (a0 ++ " not a valid argument") (firstOccEnd a0 text)
      else
        match rest with
        | [] => .indexFault
        | a1 :: _ =>
          if !(validModelName a1) then
            .verr (a0 ++ " not a a valid model name") text.length
          else .ok

def GENERATE_VALID_KEYWORDS : List String :=
  ["pathogens", "network", "fitness_matrix"]

/-- `generate_subvalidator` (validators.py). -/
def generate_subvalidator (text : String) : VResult :=
  let args := posArgs text
  if args.length > 1 then
    .verr ("Expected 1 argument, got " ++ toString args.length) text.length
  else
    match args with
    | [] => .indexFault
    | a0 :: _ =>
      if !(GENERATE_VALID_KEYWORDS.contains a0) then
        .verr (a0 ++ " not a valid argument") (firstOccEnd a0 text)
      else .ok

/-- `os.path.dirname`: everything up to the last `/`, with trailing slashes
stripped unless the result is all slashes. -/
def dirname (p : String) : String :=
  let cs := p.toList
  let head := (cs.reverse.dropWhile (fun c => !(c == '/'))).reverse
  if head.isEmpty || head.all (fun c => c == '/') then String.mk head
  else String.mk ((head.reverse.dropWhile (fun c => c == '/')).reverse)

def LOAD_SAVE_VALID_KEYWORDS : List String := ["configuration", "config"]

/-- `load_save_subvalidator` (validators.py), parameterised by the
file-system predicates `os.path.exists` and `os.path.isfile`. -/
def load_save_subvalidator (pathExistsFs isFileFs : String → Bool)
    (text : String) : VResult :=
  let args := posArgs text
  if args.length > 2 then
    .verr ("Expected 2 arguments, got " ++ toString args.length) text.length
  else
    match args with
    | [] => .indexFault
    | a0 :: rest =>
      if !(LOAD_SAVE_VALID_KEYWORDS.contains a0) then
        .verr (a0 ++ " not a valid argument") (firstOccEnd a0 text)
      else
        let cmd := (pySplit1 text).headD ""
        if cmd == "load" then
          match rest with
          | [] => .indexFault
          | a1 :: _ =>
            if !(pathExistsFs a1) then .verr "Path does not exist" text.length
            else if !(isFileFs a1) then
              .verr "Path does not refer to a file" text.length
            else .ok
        else if cmd == "save" then
          match rest with
          | [] => .indexFault
          | a1 :: _ =>
            let dirpath := dirname a1
            if !(pathExistsFs dirpath) then
              .verr "Directory path does not exist" (firstOccEnd dirpath text)
            else .ok
        else .ok

/-- The dispatch test of `StatementValidator.validate`:
`text.split(None, 1) in PREFIX_COMMAND_VALIDATOR.keys()` — the list
returned by `split` is offered to the hash-based keys view. -/
def statementDispatchTest (text : String) : Option Bool :=
  pyKeysContains VALIDATOR_COMMAND_KEYS (.strlist (pySplit1 text))

/-- What `StatementValidator.validate` does with a line: return normally
(the line is accepted), raise a ValidationError, or escape with an
uncaught TypeError. -/
inductive ValidateOutcome where
  | accept : ValidateOutcome
  | invalid (message : String) (cursor_position : Nat) : ValidateOutcome
  | typeFault : ValidateOutcome
deriving DecidableEq

/-- `StatementValidator.validate` (validators.py): single-word commands
pass; any other non-empty line reaches the `elif` dispatch test, whose
hash-based membership raises `TypeError: unhashable type: list` out of
`validate` — no branch and no sub-validator is ever reached.  (The
`some true` arm is dead: the test never evaluates to a boolean at all;
were it taken, indexing the validator dict with the same unhashable list
would fault identically.) -/
def StatementValidator_validate (text : String) : ValidateOutcome :=
  if !(text == "") then
    if SINGLE_WORD_COMMANDS.contains text then .accept
    else
      match statementDispatchTest text with
      | none => .typeFault
      | some true => .typeFault
      | some false => .accept
  else .accept

/-- The dispatch test of the main loop (contagion.py:427):
`text.split(None, 1) in PREFIX_COMMAND_HANDLER.keys()`, the same
hash-based membership on the handler table's keys view. -/
def mainDispatchTest (text : String) : Option Bool :=
  pyKeysContains HANDLER_COMMAND_KEYS (.strlist (pySplit1 text))

/-!
## `set` / `get` property access (contagion.py `set_property`,
`return_property`)
-/

def squote : Char := Char.ofNat 39

def dquote : Char := Char.ofNat 34

/-- `value.lstrip("'").lstrip('"').rstrip("'").rstrip('"')`. -/
def stripQuotes (v : String) : String :=
  let cs := v.toList
  let cs := cs.dropWhile (fun c => c == squote)
  let cs := cs.dropWhile (fun c => c == dquote)
  let cs := (cs.reverse.dropWhile (fun c => c == squote)).reverse
  let cs := (cs.reverse.dropWhile (fun c => c == dquote)).reverse
  String.mk cs

def trimLeadWs (s : String) : String := String.mk (s.toList.dropWhile pyIsSpace)

def trimTrailWs (s : String) : String :=
  String.mk ((s.toList.reverse.dropWhile pyIsSpace).reverse)

/-- Helper for `reSplitEq`: the fields after the first one lose the
whitespace the regex separator absorbs on their left, and also on their
right except for the last field. -/
def trimInnerEq : List String → List String
  | [] => []
  | [x] => [trimLeadWs x]
  | x :: xs => trimLeadWs (trimTrailWs x) :: trimInnerEq xs

/-- `re.split(r'\s*\=\s*', kv)`: split at every `=`, with the whitespace
around each `=` consumed by the separator. -/
def reSplitEq (kv : String) : List String :=
  match splitOnEq kv with
  | [] => []
  | [p] => [p]
  | p :: rest => trimTrailWs p :: trimInnerEq rest

/-- `Configuration().__dict__` in `__init__` order: the attribute
dictionary a fresh Configuration object starts with. -/
def initConfigDict : List (String × PyVal) :=
  [("config_path", .str ""),
   ("num_generations", .int 0),
   ("num_instances", .int 0),
   ("host_popsize", .int 0),
   ("epidemic_model", .str ""),
   ("coinfection", .bool false),
   ("pathogen_path", .str ""),
   ("host_network_path", .str ""),
   ("log_freq", .int 0),
   ("log_path", .str ""),
   ("intrahost_model_dict", .odict),
   ("fitness_model_dict", .odict),
   ("transmission_model_dict", .odict)]

/-- `obj.__setattr__(name, v)`: replace an existing attribute in place, or
append a new one. -/
def attrSet (d : List (String × PyVal)) (name : String) (v : PyVal) :
    List (String × PyVal) :=
  if d.any (fun p => p.1 == name) then
    d.map (fun p => if p.1 == name then (name, v) else p)
  else d ++ [(name, v)]

/-- Attribute lookup in the `__dict__`. -/
def attrGet : List (String × PyVal) → String → Option PyVal
  | [], _ => none
  | (k, v) :: rest, name => if k == name then some v else attrGet rest name

/-- `set_property` (contagion.py): `_, kv = text.split(None, 1)`,
`name, value = re.split(r'\s*\=\s*', kv)`, strip quotes, `__setattr__`.
Either unpacking raises ValueError (`none`) when the element count is not
exactly two.  The value is stored as the stripped string, with no type
coercion. -/
def set_property (d : List (String × PyVal)) (text : String) :
    Option (List (String × PyVal)) :=
  match pySplit1 text with
  | [_, kv] =>
    match reSplitEq kv with
    | [name, value] => some (attrSet d name (.str (stripQuotes value)))
    | _ => none
  | _ => none

/-- `return_property` (contagion.py): sentinel strings for `None`, for the
empty string, and for an unknown property name; otherwise the stored
value. -/
def return_property (d : List (String × PyVal)) (text : String) : PyVal :=
  if (d.map Prod.fst).contains text then
    match attrGet d text with
    | some v =>
      match v with
      | .pynone => .str "None"
      | .str s => if s == "" then .str (String.mk [squote, squote]) else .str s
      | _ => v
    | none => .str "unknown configuration parameter"
  else .str "unknown configuration parameter"

/-!
## Host-id shorthand (configurator/configuration.py `parse_host_ids`)
-/

/-- `(\d+)` group capture: maximal digit run at the front. -/
def takeDigits (s : List Char) : List Char × List Char :=
  (s.takeWhile Char.isDigit, s.dropWhile Char.isDigit)

/-- `re.search(r'^\!\[\s*(\d+)\s*\,\s*(\d+)\s*\,?\s*(\d+)?\s*\,?\]$', text)`:
the three captured groups when the whole string matches (the third group is
optional).  The pattern is deterministic for greedy matching, so a
hand-rolled scanner is equivalent. -/
def hostRangeMatch (text : String) :
    Option (List Char × List Char × Option (List Char)) :=
  match text.toList with
  | '!' :: '[' :: rest0 =>
    let rest1 := eatWs rest0
    let (g1, rest2) := takeDigits rest1
    if g1.isEmpty then none
    else
      match eatWs rest2 with
      | ',' :: rest3 =>
        let rest4 := eatWs rest3
        let (g2, rest5) := takeDigits rest4
        if g2.isEmpty then none
        else
          let rest6 := eatWs rest5
          let rest7 := match rest6 with | ',' :: r => eatWs r | _ => rest6
          let (g3, rest8) := takeDigits rest7
          let rest9 := eatWs rest8
          let rest10 := match rest9 with | ',' :: r => r | _ => rest9
          match rest10 with
          | [']'] => some (g1, g2, if g3.isEmpty then none else some g3)
          | _ => none
      | _ => none
  | _ => none

/-- Python `range(start, stop, step)` as a list, for the non-negative steps
the digit-only capture groups can produce (`range` raises ValueError on a
zero step, handled by the caller). -/
def pyRange (start stop step : Int) : List Int :=
  if 0 < step ∧ start < stop then
    (List.range (((stop - start - 1) / step).toNat + 1)).map
      (fun i => start + step * (i : Int))
  else []

/-- `parse_host_ids` (configuration.py): on a range match build
`[i for i in range(start, end, skip)]`, otherwise
`list(map(int, re.findall(r'\d+', text)))`.  `match.groups()` always has
length 3 (a missing group is `None`), so the source's first branch runs and
`int(None)` raises TypeError (`none`) when the third group is absent. -/
def parse_host_ids (text : String) : Option (List Int) :=
  match hostRangeMatch text with
  | some (g1, g2, g3opt) =>
    match g3opt with
    | some g3 =>
      let step := digitsToInt g3
      if step == 0 then none
      else some (pyRange (digitsToInt g1) (digitsToInt g2) step)
    | none => none
  | none => some ((digitRuns text).map digitsToInt)

/-!
## Claim-side acceptance condition for the `run` statement
-/

/-- Key/value of a raw token around its first `=`. -/
def splitFirstEq (w : String) : String × String :=
  match splitOnEq w with
  | [] => ("", "")
  | k :: rest => (k, String.intercalate "=" rest)

/-- `v` consists of one or more digits (the anchored reading of "value
matches `\d+`"). -/
def allDigits (v : String) : Bool := !(v.isEmpty) && v.toList.all Char.isDigit

/-- Acceptance condition transcribed from the claim wording, for comparison
with `run_subvalidator`: every `key=value` pair of the line has its key in
{logger, threads}, every logger value is in {csv, sqlite}, and every
threads value matches `\d+`. -/
def run_claim_accepts (text : String) : Bool :=
  ((kwargTokens text).map splitFirstEq).all (fun p =>
    RUN_VALID_KEYWORDS.contains p.1
    && (!(p.1 == "logger") || RUN_VALID_LOGGER_VALUES.contains p.2)
    && (!(p.1 == "threads") || allDigits p.2))

/-!
## Sample values used by closed witnesses
-/

/-- A `constant`-replication intrahost model with two non-zero durations. -/
def sampleIntrahostModel : IntrahostModel :=
  { model_name := "m1", host_ids := [0, 1], mutation_rate := "0.001",
    transition_matrix := [], recombination_rate := "0.0",
    replication_model := "constant", constant_pop_size := 100,
    max_pop_size := 0, growth_rate := "0.0", exposed_duration := 0,
    infected_duration := 2, infective_duration := 0, removed_duration := 3,
    recovered_duration := 0, dead_duration := 0, vaccinated_duration := 0 }

/-- A `bht`-replication intrahost model. -/
def sampleBhtModel : IntrahostModel :=
  { sampleIntrahostModel with
    model_name := "m2", replication_model := "bht",
    max_pop_size := 1000, growth_rate := "1.2" }

/-- A `fitness`-replication intrahost model. -/
def sampleFitnessModel : IntrahostModel :=
  { sampleIntrahostModel with
    model_name := "m3", replication_model := "fitness",
    max_pop_size := 1000 }

/-- An intrahost model carrying the legacy `bh` tag. -/
def sampleBhModel : IntrahostModel :=
  { sampleIntrahostModel with
    model_name := "m4", replication_model := "bh", growth_rate := "1.1" }

/-- A configuration whose three model collections are all empty. -/
def emptyConfiguration : Configuration :=
  { config_path := "", num_generations := 10, num_instances := 1,
    host_popsize := 5, epidemic_model := "sir", coinfection := false,
    pathogen_path := "pathogens.fasta", host_network_path := "network.txt",
    log_freq := 1, log_path := "log.csv", intrahost_model_dict := [],
    fitness_model_dict := [], transmission_model_dict := [] }

/-- The same configuration holding one intrahost model. -/
def configurationWithModel : Configuration :=
  { emptyConfiguration with
    intrahost_model_dict := [("m1", sampleIntrahostModel)] }

/-!
## Claim theorems
-/

/-- C10: the host-id shorthand of `parse_host_ids`
(configurator/configuration.py) maps the range input `![0,20,2]` to the
integer list 0, 2, ..., 18 (start 0, exclusive end 20, step 2) and the
plain whitespace-separated input `1 2 3` to the list 1, 2, 3. -/
theorem parse_host_ids_examples :
    parse_host_ids "![0,20,2]" = some [0, 2, 4, 6, 8, 10, 12, 14, 16, 18] ∧
    parse_host_ids "1 2 3" = some [1, 2, 3] :=
  ⟨by decide, by decide⟩

/-- C7: evaluating the sub-validators of the argument-taking commands on a
line with zero positional arguments.  Contrary to the claim, each indexes
`args[0]` in an empty list and escapes with an IndexError instead of
raising a structured ValidationError. -/
theorem zero_arg_subvalidators_index_fault :
    create_append_subvalidator "create" = VResult.indexFault ∧
    create_append_subvalidator "append" = VResult.indexFault ∧
    generate_subvalidator "generate" = VResult.indexFault ∧
    load_save_subvalidator (fun _ => false) (fun _ => false) "load" =
      VResult.indexFault ∧
    load_save_subvalidator (fun _ => false) (fun _ => false) "save" =
      VResult.indexFault :=
  ⟨by decide, by decide, by decide, by decide, by decide⟩

/-- C4: evaluating `Configuration.toml_string` at the failing input.  With
the model collections empty it returns just the simulation block followed
by the logging block (the latter headed by a duplicate `[simulation]`
header); as soon as one intrahost model is present, the `+=` of the model's
`None`-returning `toml_string()` raises a TypeError, so the concatenated
document the claim describes is never produced. -/
theorem config_toml_string_fails_with_model :
    emptyConfiguration.toml_string =
      some (emptyConfiguration.simBlock ++ emptyConfiguration.loggingBlock) ∧
    configurationWithModel.toml_string = none :=
  ⟨rfl, rfl⟩

/-- C9, counterexample: after `set host_popsize=20`, `return_property` does
not return the integer 20 — no type coercion happens at `set` time. -/
theorem set_get_returns_string_cex :
    (set_property initConfigDict "set host_popsize=20").map
      (fun d => return_property d "host_popsize") ≠ some (PyVal.int 20) := by
  decide

/-- C9, amended: after `set host_popsize=20`, a `get` of `host_popsize`
returns the quote-stripped string `"20"`; `set_property` stores the raw
string and no coercion is performed at `set` time (nor later by
`return_property`). -/
theorem set_get_returns_string :
    (set_property initConfigDict "set host_popsize=20").map
      (fun d => return_property d "host_popsize") = some (PyVal.str "20") := by
  decide

/-- Appending `None` to an accumulator faults regardless of the
accumulator. -/
theorem pyConcat_none_right (acc : Option String) : pyConcat acc none = none := by
  cases acc <;> rfl

/-- Folding `+=` over models whose `toml_string()` is always `None` keeps
the accumulator only over an empty list and otherwise faults. -/
theorem foldl_pyConcat_const_none {α : Type} (f : α → Option String)
    (hf : ∀ a, f a = none) (l : List α) (acc : Option String) :
    l.foldl (fun s m => pyConcat s (f m)) acc =
      if l.isEmpty then acc else none := by
  induction l generalizing acc with
  | nil => rfl
  | cons x xs ih =>
    rw [List.foldl_cons, hf, pyConcat_none_right, ih]
    cases xs <;> rfl

/-- C2: every `IntrahostModel`, `FitnessModel` and `TransmissionModel`
`toml_string()` builds its block in a local variable but, having no
`return` statement, returns `None`; consequently
`Configuration.toml_string()` returns a string exactly when all three model
collections are empty, and hits a string-concatenation TypeError whenever
any collection is non-empty. -/
theorem toml_string_methods_return_none (c : Configuration)
    (im : IntrahostModel) (fm : FitnessModel) (tm : TransmissionModel) :
    im.toml_string = none ∧ fm.toml_string = none ∧ tm.toml_string = none ∧
    (c.toml_string ≠ none ↔
      (c.intrahost_model_dict = [] ∧ c.fitness_model_dict = [] ∧
       c.transmission_model_dict = [])) := by
  refine ⟨rfl, rfl, rfl, ?_⟩
  simp only [Configuration.toml_string]
  rw [foldl_pyConcat_const_none IntrahostModel.toml_string (fun _ => rfl),
    foldl_pyConcat_const_none FitnessModel.toml_string (fun _ => rfl),
    foldl_pyConcat_const_none TransmissionModel.toml_string (fun _ => rfl)]
  rcases hi : c.intrahost_model_dict with _ | ⟨p, l⟩ <;>
    rcases hf : c.fitness_model_dict with _ | ⟨q, l2⟩ <;>
    rcases ht : c.transmission_model_dict with _ | ⟨r, l3⟩ <;>
    simp

/-- C6, counterexample: `validate` does not accept the whitespace-containing
line `run logger=xml` — the dispatch membership test hashes the list from
`text.split(None, 1)` and raises `TypeError: unhashable type: list`, which
escapes `validate`. -/
theorem statement_validator_claim_false :
    StatementValidator_validate "run logger=xml" = ValidateOutcome.typeFault ∧
    ValidateOutcome.typeFault ≠ ValidateOutcome.accept :=
  ⟨by decide, by decide⟩

/-- C6, amended: on any input line containing whitespace, the dispatch test
of `StatementValidator.validate` never evaluates to a boolean — offering
the 2-element list from `text.split(None, 1)` to the hash-based keys view
raises TypeError — so `validate` never invokes a per-command sub-validator,
but it does not accept the line either: the TypeError escapes it; the main
loop's prefix-command handler dispatch performs the same membership test
and faults identically instead of firing. -/
theorem statement_validator_multiword_type_fault (text : String)
    (h : text.toList.any pyIsSpace = true) :
    statementDispatchTest text = none ∧
    StatementValidator_validate text = ValidateOutcome.typeFault ∧
    mainDispatchTest text = none := by
  have h1 : statementDispatchTest text = none := rfl
  have h3 : mainDispatchTest text = none := rfl
  have htext : (text == "") = false := by
    rcases ht : text == "" with _ | _
    · rfl
    · have ht2 : text = "" := by simpa using ht
      subst ht2
      simp [pyIsSpace] at h
  have hsw : SINGLE_WORD_COMMANDS.contains text = false := by
    have hmem : text ∉ SINGLE_WORD_COMMANDS := by
      intro hmem
      fin_cases hmem <;> exact absurd h (by decide)
    simpa using hmem
  refine ⟨h1, ?_, h3⟩
  unfold StatementValidator_validate
  rw [htext, hsw, h1]
  rfl

/-- Witness for C6 at the concrete line `run logger=xml`. -/
theorem statement_validator_multiword_type_fault_witness :
    statementDispatchTest "run logger=xml" = none ∧
    StatementValidator_validate "run logger=xml" = ValidateOutcome.typeFault ∧
    mainDispatchTest "run logger=xml" = none :=
  statement_validator_multiword_type_fault "run logger=xml" (by decide)

/-- C5: on the duration-collecting path of intrahost-model construction
(replication model other than `fitness`), the set of duration fields
collected is determined by the epidemic-model tag: `endtrans` collects
exactly infected and removed; `exchange` collects none; any other tag
collects exposed iff it starts with `se`, infected iff it starts with `si`,
infective iff it starts with `sei`, removed iff it ends with `r`, and
recovered iff it ends with `rs`. -/
theorem intrahost_duration_collection_rules (rm em : String)
    (h : rm ≠ "fitness") :
    (em = "endtrans" →
      collectedDurations rm em = ⟨false, true, false, true, false⟩) ∧
    (em = "exchange" →
      collectedDurations rm em = ⟨false, false, false, false, false⟩) ∧
    (em ≠ "endtrans" → em ≠ "exchange" →
      collectedDurations rm em =
        ⟨pyStartsWith em "se", pyStartsWith em "si", pyStartsWith em "sei",
         pyEndsWith em "r", pyEndsWith em "rs"⟩) := by
  have hb : (rm != "fitness") = true := by simpa using h
  refine ⟨?_, ?_, ?_⟩
  · rintro rfl
    simp [collectedDurations, hb]
  · rintro rfl
    simp [collectedDurations, hb]
  · intro h1 h2
    have hb1 : (em == "endtrans") = false := by simpa using h1
    have hb2 : (em == "exchange") = false := by simpa using h2
    simp only [collectedDurations, hb, hb1, hb2, if_true, if_false,
      Bool.false_eq_true, Bool.true_eq_false]
    cases hse : pyStartsWith em "se" <;>
      cases hsi : pyStartsWith em "si" <;>
      cases hsei : pyStartsWith em "sei" <;>
      cases hr : pyEndsWith em "r" <;>
      cases hrs : pyEndsWith em "rs" <;>
      simp

/-- Witness for C5 at the concrete tags `constant`/`sir`. -/
theorem intrahost_duration_collection_rules_witness :
    collectedDurations "constant" "sir" =
      ⟨pyStartsWith "sir" "se", pyStartsWith "sir" "si",
       pyStartsWith "sir" "sei", pyEndsWith "sir" "r", pyEndsWith "sir" "rs"⟩ :=
  (intrahost_duration_collection_rules "constant" "sir" (by decide)).2.2
    (by decide) (by decide)

/-- The seven duration keys, in dictionary order. -/
def DURATION_KEYS : List String :=
  ["exposed_duration", "infected_duration", "infective_duration",
   "removed_duration", "recovered_duration", "dead_duration",
   "vaccinated_duration"]

/-- The key sequence of an intrahost block, segment by segment. -/
theorem blockEntries_keys (m : IntrahostModel) :
    m.blockEntries.map Prod.fst =
      ["model_name", "host_ids", "mutation_rate", "recombination_rate",
       "replication_model"]
      ++ ((durationKVs m).filter (fun p => p.2 != 0)).map Prod.fst
      ++ (if m.replication_model ∈ ["bht", "fitness"] then ["max_pop_size"]
          else ["constant_pop_size"])
      ++ (if m.replication_model ∈ ["bh", "bht"] then ["growth_rate"]
          else []) := by
  by_cases hb : m.replication_model ∈ (["bht", "fitness"] : List String) <;>
    by_cases hg : m.replication_model ∈ (["bh", "bht"] : List String) <;>
    simp [IntrahostModel.blockEntries, hb, hg]

/-- Keys of the filtered duration segment are duration keys. -/
theorem mem_filtered_dur_keys {m : IntrahostModel} {k : String}
    (hk : k ∈ ((durationKVs m).filter (fun p => p.2 != 0)).map Prod.fst) :
    k ∈ DURATION_KEYS := by
  simp only [List.mem_map, List.mem_filter] at hk
  obtain ⟨p, ⟨hp, _⟩, rfl⟩ := hk
  simp only [durationKVs, List.mem_cons, List.not_mem_nil, or_false] at hp
  rcases hp with h | h | h | h | h | h | h <;> subst h <;> simp [DURATION_KEYS]

/-- In an association list with distinct keys, the key of an entry occurs
in the non-zero-filtered key sequence once when the entry's value is
non-zero and not at all when it is zero. -/
theorem count_map_fst_filter (name : String) (v : Int) :
    ∀ l : List (String × Int), (l.map Prod.fst).Nodup → (name, v) ∈ l →
      ((l.filter (fun p => p.2 != 0)).map Prod.fst).count name =
        if v != 0 then 1 else 0 := by
  intro l
  induction l with
  | nil => intro _ h; cases h
  | cons hd tl ih =>
    intro hnd hmem
    obtain ⟨k, w⟩ := hd
    rw [List.map_cons, List.nodup_cons] at hnd
    rcases List.mem_cons.mp hmem with heq | hmem2
    · cases heq
      have hnot : name ∉ (tl.filter (fun p => p.2 != 0)).map Prod.fst := by
        intro hmm
        obtain ⟨p, hp, hfst⟩ := List.mem_map.mp hmm
        exact hnd.1 (List.mem_map.mpr ⟨p, (List.mem_filter.mp hp).1, hfst⟩)
      by_cases hv : (v != 0) = true
      · simp [List.filter_cons, hv, List.count_cons,
          List.count_eq_zero.mpr hnot]
      · simp only [Bool.not_eq_true] at hv
        simp [List.filter_cons, hv, List.count_eq_zero.mpr hnot]
    · have hkne : ¬(name = k) := by
        rintro rfl
        exact hnd.1 (List.mem_map.mpr ⟨(name, v), hmem2, rfl⟩)
      have hrec := ih hnd.2 hmem2
      by_cases hw : (w != 0) = true
      · simp [List.filter_cons, hw, List.count_cons, hkne, hrec]
      · simp only [Bool.not_eq_true] at hw
        simp [List.filter_cons, hw, hrec]

/-- Occurrence count of a duration key in the full key sequence of an
intrahost block. -/
theorem count_blockKeys (m : IntrahostModel) (name : String) (v : Int)
    (hmem : (name, v) ∈ durationKVs m) :
    (m.blockEntries.map Prod.fst).count name = if v != 0 then 1 else 0 := by
  have hnd : ((durationKVs m).map Prod.fst).Nodup := by
    simp [durationKVs]
  have hseg2 := count_map_fst_filter name v (durationKVs m) hnd hmem
  have hname : name ∈ DURATION_KEYS := by
    simp only [durationKVs, List.mem_cons, List.not_mem_nil, or_false] at hmem
    rcases hmem with h | h | h | h | h | h | h <;>
      (injection h with h1 h2; subst h1; simp [DURATION_KEYS])
  rw [blockEntries_keys, List.count_append, List.count_append,
    List.count_append, hseg2]
  have h1 : List.count name
      ["model_name", "host_ids", "mutation_rate", "recombination_rate",
       "replication_model"] = 0 := by
    fin_cases hname <;> decide
  have h3 : List.count name
      (if m.replication_model ∈ ["bht", "fitness"] then ["max_pop_size"]
       else ["constant_pop_size"]) = 0 := by
    fin_cases hname <;> split <;> decide
  have h4 : List.count name
      (if m.replication_model ∈ ["bh", "bht"] then ["growth_rate"]
       else []) = 0 := by
    fin_cases hname <;> split <;> decide
  rw [h1, h3, h4]
  omega

/-- A key outside every segment is not a key of the block. -/
theorem not_mem_blockKeys_aux {m : IntrahostModel} {k : String}
    (hA : k ∉ (["model_name", "host_ids", "mutation_rate",
      "recombination_rate", "replication_model"] : List String))
    (hdk : k ∉ DURATION_KEYS)
    (hC : k ∉ (if m.replication_model ∈ ["bht", "fitness"]
      then ["max_pop_size"] else ["constant_pop_size"]))
    (hD : k ∉ (if m.replication_model ∈ ["bh", "bht"]
      then ["growth_rate"] else [])) :
    k ∉ m.blockEntries.map Prod.fst := by
  rw [blockEntries_keys]
  intro hmem
  rcases List.mem_append.mp hmem with h | h
  · rcases List.mem_append.mp h with h | h
    · rcases List.mem_append.mp h with h | h
      · exact hA h
      · exact hdk (mem_filtered_dur_keys h)
    · exact hC h
  · exact hD h

/-- C1: the population-size keys of an intrahost block are selected by
`replication_model`: `constant` yields a `constant_pop_size` line and
neither `max_pop_size` nor `growth_rate`; `bht` yields `max_pop_size` and
`growth_rate` and no `constant_pop_size`; `fitness` yields `max_pop_size`
only; and the legacy tag `bh` additionally yields a `growth_rate` line. -/
theorem intrahost_popsize_field_selection (m : IntrahostModel) :
    (m.replication_model = "constant" →
      "constant_pop_size" ∈ m.blockEntries.map Prod.fst ∧
      "max_pop_size" ∉ m.blockEntries.map Prod.fst ∧
      "growth_rate" ∉ m.blockEntries.map Prod.fst) ∧
    (m.replication_model = "bht" →
      "max_pop_size" ∈ m.blockEntries.map Prod.fst ∧
      "growth_rate" ∈ m.blockEntries.map Prod.fst ∧
      "constant_pop_size" ∉ m.blockEntries.map Prod.fst) ∧
    (m.replication_model = "fitness" →
      "max_pop_size" ∈ m.blockEntries.map Prod.fst ∧
      "growth_rate" ∉ m.blockEntries.map Prod.fst ∧
      "constant_pop_size" ∉ m.blockEntries.map Prod.fst) ∧
    (m.replication_model = "bh" →
      "growth_rate" ∈ m.blockEntries.map Prod.fst) := by
  refine ⟨?_, ?_, ?_, ?_⟩ <;> intro h
  · exact ⟨by rw [blockEntries_keys, h]; simp,
      not_mem_blockKeys_aux (by decide) (by decide) (by rw [h]; decide)
        (by rw [h]; decide),
      not_mem_blockKeys_aux (by decide) (by decide) (by rw [h]; decide)
        (by rw [h]; decide)⟩
  · exact ⟨by rw [blockEntries_keys, h]; simp,
      by rw [blockEntries_keys, h]; simp,
      not_mem_blockKeys_aux (by decide) (by decide) (by rw [h]; decide)
        (by rw [h]; decide)⟩
  · exact ⟨by rw [blockEntries_keys, h]; simp,
      not_mem_blockKeys_aux (by decide) (by decide) (by rw [h]; decide)
        (by rw [h]; decide),
      not_mem_blockKeys_aux (by decide) (by decide) (by rw [h]; decide)
        (by rw [h]; decide)⟩
  · rw [blockEntries_keys, h]; simp

/-- Witness for C1 at concrete models for each replication tag. -/
theorem intrahost_popsize_field_selection_witness :
    ("constant_pop_size" ∈ sampleIntrahostModel.blockEntries.map Prod.fst ∧
     "max_pop_size" ∉ sampleIntrahostModel.blockEntries.map Prod.fst ∧
     "growth_rate" ∉ sampleIntrahostModel.blockEntries.map Prod.fst) ∧
    ("max_pop_size" ∈ sampleBhtModel.blockEntries.map Prod.fst ∧
     "growth_rate" ∈ sampleBhtModel.blockEntries.map Prod.fst ∧
     "constant_pop_size" ∉ sampleBhtModel.blockEntries.map Prod.fst) ∧
    ("max_pop_size" ∈ sampleFitnessModel.blockEntries.map Prod.fst ∧
     "growth_rate" ∉ sampleFitnessModel.blockEntries.map Prod.fst ∧
     "constant_pop_size" ∉ sampleFitnessModel.blockEntries.map Prod.fst) ∧
    "growth_rate" ∈ sampleBhModel.blockEntries.map Prod.fst :=
  ⟨(intrahost_popsize_field_selection sampleIntrahostModel).1 rfl,
   (intrahost_popsize_field_selection sampleBhtModel).2.1 rfl,
   (intrahost_popsize_field_selection sampleFitnessModel).2.2.1 rfl,
   (intrahost_popsize_field_selection sampleBhModel).2.2.2 rfl⟩

/-- C3: each of the seven duration fields is omitted from the intrahost
block when its value is 0, and when non-zero its key appears exactly once,
carrying that value. -/
theorem intrahost_duration_sparse_serialization (m : IntrahostModel) :
    ∀ p ∈ durationKVs m,
      (p.2 = 0 → p.1 ∉ m.blockEntries.map Prod.fst) ∧
      (p.2 ≠ 0 → (m.blockEntries.map Prod.fst).count p.1 = 1 ∧
        (p.1, pyStrInt p.2) ∈ m.blockEntries) := by
  rintro ⟨name, v⟩ hp
  have hcount := count_blockKeys m name v hp
  constructor
  · rintro rfl
    simp only [bne_self_eq_false, Bool.false_eq_true, if_false] at hcount
    exact List.count_eq_zero.mp hcount
  · intro hne
    have hv : (v != 0) = true := by simpa using hne
    refine ⟨by simpa [hv] using hcount, ?_⟩
    have hmm : (name, pyStrInt v) ∈
        ((durationKVs m).filter (fun p => p.2 != 0)).map
          (fun p => (p.1, pyStrInt p.2)) :=
      List.mem_map.mpr ⟨(name, v), List.mem_filter.mpr ⟨hp, hv⟩, rfl⟩
    simp only [IntrahostModel.blockEntries]
    exact List.mem_append.mpr (Or.inl (List.mem_append.mpr (Or.inl
      (List.mem_append.mpr (Or.inr hmm)))))

/-- Witness for C3 at a concrete model: `infected_duration = 2` appears
exactly once with value 2. -/
theorem intrahost_duration_sparse_serialization_witness :
    (sampleIntrahostModel.blockEntries.map Prod.fst).count
      "infected_duration" = 1 ∧
    ("infected_duration", pyStrInt 2) ∈ sampleIntrahostModel.blockEntries :=
  (intrahost_duration_sparse_serialization sampleIntrahostModel
    ("infected_duration", 2) (by decide)).2 (by decide)

/-- The kwargs loop of `run_subvalidator` returns normally exactly when
every dict entry passes the keyword and value checks. -/
theorem checkRunKwargs_ok_iff (text : String) (l : List (String × String)) :
    checkRunKwargs text l = VResult.ok ↔
      ∀ p ∈ l, p.1 ∈ RUN_VALID_KEYWORDS ∧
        (p.1 = "logger" → p.2 ∈ RUN_VALID_LOGGER_VALUES) ∧
        (p.1 = "threads" → hasDigit p.2 = true) := by
  induction l with
  | nil => simp [checkRunKwargs]
  | cons hd tl ih =>
    obtain ⟨k, v⟩ := hd
    rw [List.forall_mem_cons]
    by_cases hk : k ∈ RUN_VALID_KEYWORDS
    · have hkc : RUN_VALID_KEYWORDS.contains k = true := List.elem_iff.mpr hk
      by_cases hlog : k = "logger"
      · subst hlog
        by_cases hv : v ∈ RUN_VALID_LOGGER_VALUES
        · have hvc : RUN_VALID_LOGGER_VALUES.contains v = true :=
            List.elem_iff.mpr hv
          simp [checkRunKwargs, hkc, hvc, ih, hk, hv]
        · have hvc : RUN_VALID_LOGGER_VALUES.contains v = false := by
            simpa using hv
          simp only [checkRunKwargs, hkc, hvc, hv]
          simp [hv]
      · by_cases hthr : k = "threads"
        · subst hthr
          by_cases hdig : hasDigit v = true
          · simp [checkRunKwargs, hkc, hdig, ih, hk]
          · have hdig2 : hasDigit v = false := by simpa using hdig
            simp only [checkRunKwargs, hkc, hdig2]
            simp [hdig2]
        · exfalso
          simp only [RUN_VALID_KEYWORDS, List.mem_cons, List.mem_singleton,
            List.not_mem_nil, or_false] at hk
          rcases hk with h | h
          · exact hlog h
          · exact hthr h
    · have hkc : RUN_VALID_KEYWORDS.contains k = false := by simpa using hk
      simp [checkRunKwargs, hkc, hk]

/-- C8, counterexample: the per-pair reading of the claim is false on the
code.  With a duplicated key (`run logger=xml logger=csv`) the dict keeps
only the last binding, so the validator accepts although the line contains
the pair `logger=xml` that the claim says must be rejected; with
`run threads=a1` the validator accepts although `a1` does not consist of
digits (the source only searches for a digit); and a token with two `=`
signs escapes with a ValueError instead of a validation error. -/
theorem run_subvalidator_pairwise_claim_false :
    run_subvalidator "run logger=xml logger=csv" = VResult.ok ∧
    run_claim_accepts "run logger=xml logger=csv" = false ∧
    run_subvalidator "run threads=a1" = VResult.ok ∧
    run_claim_accepts "run threads=a1" = false ∧
    run_subvalidator "run a=1=2" = VResult.valueFault :=
  ⟨by decide, by decide, by decide, by decide, by decide⟩

/-- C8, amended: `run_subvalidator` first collapses the line's `key=value`
tokens into a dict (last occurrence of a repeated key wins; a token with
more than one `=` raises a ValueError), then accepts exactly when every
dict entry has its key in {logger, threads}, every logger binding in
{csv, sqlite}, and every threads binding containing at least one digit
(`re.search(r'\d+')`); `run logger=csv threads=4` is accepted, and
`run logger=xml` is rejected with a message referencing `xml`. -/
theorem run_subvalidator_dict_characterization :
    (∀ text : String,
      run_subvalidator text = VResult.ok ↔
        ∃ d, pyDictAux [] ((kwargTokens text).map splitOnEq) = some d ∧
          ∀ p ∈ d, p.1 ∈ RUN_VALID_KEYWORDS ∧
            (p.1 = "logger" → p.2 ∈ RUN_VALID_LOGGER_VALUES) ∧
            (p.1 = "threads" → hasDigit p.2 = true)) ∧
    run_subvalidator "run logger=csv threads=4" = VResult.ok ∧
    run_subvalidator "run logger=xml" =
      VResult.verr "xml not a valid value for logger" 14 := by
  refine ⟨?_, by decide, by decide⟩
  intro text
  unfold run_subvalidator
  rcases hd : pyDictAux [] ((kwargTokens text).map splitOnEq) with _ | d
  · simp
  · simp [checkRunKwargs_ok_iff]
